import Mathlib

/-!
# Verification of the vendored Angular directives and the sass-loader schema

Shallow embedding of the code in
`src/view/node_mdules/@angular/common/esm2020/src/directives/ng_if.mjs`,
`src/view/node_mdules/@angular/common/esm2020/src/directives/ng_for_of.mjs`, and
`src/view/node_mdules/sass-loader/dist/options.json`.

JavaScript values relevant to these code paths are modelled by `JsVal`;
directive instances become explicit state records, and the host
`ViewContainerRef` is modelled by the list of views it currently holds
together with a trace of the calls issued to it.  Methods that can `throw`
return a `Bool` flag alongside the state they leave behind (JavaScript
exceptions do not roll back mutations performed before the `throw`).
-/

/-- A JavaScript value, restricted to the shapes these code paths inspect.
`vobj id createEmbeddedView` is an object with identity `id` whose
`createEmbeddedView` property evaluates to the given value
(`vundefined` when the property is absent, as JS property access yields). -/
inductive JsVal where
  | vnull
  | vundefined
  | vbool (b : Bool)
  | vnum (n : Int)
  | vstr (s : String)
  | vfun (id : Nat)
  | vobj (id : Nat) (createEmbeddedView : JsVal)
  deriving DecidableEq, Repr

namespace JsVal

/-- JavaScript truthiness (`Boolean(v)`) for the modelled values. -/
def truthy : JsVal → Bool
  | vnull => false
  | vundefined => false
  | vbool b => b
  | vnum n => n != 0
  | vstr s => s != ""
  | vfun _ => true
  | vobj _ _ => true

/-- Reading `v.createEmbeddedView`: the stored property for objects,
`undefined` for every other value (the code only reads it under a
truthiness guard, so the null/undefined TypeError path is unreachable). -/
def createEmbeddedViewProp : JsVal → JsVal
  | vobj _ cev => cev
  | _ => vundefined

/-- `true` for a JS function value (`typeof v === 'function'`). -/
def isFunction : JsVal → Bool
  | vfun _ => true
  | _ => false

/-- `v` is an object carrying a `createEmbeddedView` property
(the shape the claim C1 describes as a `TemplateRef`). -/
def hasCreateEmbeddedViewProp : JsVal → Bool
  | vobj _ cev => cev != vundefined
  | _ => false

end JsVal

/-- `assertTemplate` (ng_if.mjs, lines 237-242) passes, i.e. does not throw:
`!!(!templateRef || templateRef.createEmbeddedView)`. -/
def isTemplateRefOrNull (templateRef : JsVal) : Bool :=
  !templateRef.truthy || templateRef.createEmbeddedViewProp.truthy

/-- One call issued to the host `ViewContainerRef` by `NgIf`.  The context
argument of `createEmbeddedView` is always the directive's `_context`; its
two fields at call time are recorded explicitly. -/
inductive VCCall where
  | clear
  | createEmbeddedView (tpl ctxImplicit ctxNgIf : JsVal)
  deriving DecidableEq, Repr

/-- `true` for a `createEmbeddedView` call. -/
def VCCall.isCreate : VCCall → Bool
  | VCCall.createEmbeddedView _ _ _ => true
  | VCCall.clear => false

/-- State of one `NgIf` directive instance (ng_if.mjs, lines 149-205)
together with its `ViewContainerRef`'s contents.  A view in the container is
recorded by the template it was created from (its context is always the
directive's shared `_context`); `_thenViewRef`/`_elseViewRef` are `some t`
when an embedded view created from template `t` is cached. -/
structure NgIfState where
  implicit : JsVal
  ngIfCtx : JsVal
  thenTemplateRef : JsVal
  elseTemplateRef : JsVal
  thenViewRef : Option JsVal
  elseViewRef : Option JsVal
  container : List JsVal
  deriving DecidableEq, Repr

namespace NgIf

/-- The `NgIf` constructor (ng_if.mjs, lines 150-158): fresh `NgIfContext`
(both fields `null`), `_thenTemplateRef` set to the injected template,
everything else `null`, empty view container. -/
def init (templateRef : JsVal) : NgIfState :=
  { implicit := JsVal.vnull
    ngIfCtx := JsVal.vnull
    thenTemplateRef := templateRef
    elseTemplateRef := JsVal.vnull
    thenViewRef := none
    elseViewRef := none
    container := [] }

/-- `NgIf._updateView` (ng_if.mjs, lines 184-205).  Returns the state after
the call and the sequence of `ViewContainerRef` calls it issued. -/
def updateView (s : NgIfState) : NgIfState × List VCCall :=
  if s.implicit.truthy then
    if s.thenViewRef.isSome then (s, [])
    else
      if s.thenTemplateRef.truthy then
        ({ s with container := [s.thenTemplateRef]
                  elseViewRef := none
                  thenViewRef := some s.thenTemplateRef },
         [VCCall.clear,
          VCCall.createEmbeddedView s.thenTemplateRef s.implicit s.ngIfCtx])
      else
        ({ s with container := [], elseViewRef := none }, [VCCall.clear])
  else
    if s.elseViewRef.isSome then (s, [])
    else
      if s.elseTemplateRef.truthy then
        ({ s with container := [s.elseTemplateRef]
                  thenViewRef := none
                  elseViewRef := some s.elseTemplateRef },
         [VCCall.clear,
          VCCall.createEmbeddedView s.elseTemplateRef s.implicit s.ngIfCtx])
      else
        ({ s with container := [], thenViewRef := none }, [VCCall.clear])

/-- The `ngIf` input setter (ng_if.mjs, lines 162-165):
`_context.$implicit = _context.ngIf = condition; _updateView()`. -/
def setNgIf (s : NgIfState) (condition : JsVal) : NgIfState × List VCCall :=
  updateView { s with implicit := condition, ngIfCtx := condition }

/-- The `ngIfThen` input setter (ng_if.mjs, lines 169-174).  The `Bool`
component is `true` when `assertTemplate` threw; the throw happens before
any mutation, so the state then comes back unchanged with no container
calls. -/
def setNgIfThen (s : NgIfState) (templateRef : JsVal) :
    NgIfState × List VCCall × Bool :=
  if !isTemplateRefOrNull templateRef then (s, [], true)
  else
    let r := updateView { s with thenTemplateRef := templateRef, thenViewRef := none }
    (r.1, r.2, false)

/-- The `ngIfElse` input setter (ng_if.mjs, lines 178-183), analogous to
`ngIfThen`. -/
def setNgIfElse (s : NgIfState) (templateRef : JsVal) :
    NgIfState × List VCCall × Bool :=
  if !isTemplateRefOrNull templateRef then (s, [], true)
  else
    let r := updateView { s with elseTemplateRef := templateRef, elseViewRef := none }
    (r.1, r.2, false)

end NgIf

/-- JavaScript's `%` operator (remainder truncated toward zero), used by the
`even` getter of `NgForOfContext`. -/
def jsRem (a b : Int) : Int := Int.tmod a b

/-- `NgForOfContext` (ng_for_of.mjs, lines 13-19): the per-view context
object with its four stored fields.  `index` and `count` are JS numbers,
modelled as integers (the code assigns `-1` placeholders to them). -/
structure NgForOfContext where
  implicit : JsVal
  ngForOf : JsVal
  index : Int
  count : Int
  deriving DecidableEq, Repr

/-- `NgForOfContext.first` getter (ng_for_of.mjs, lines 20-22). -/
def NgForOfContext.first (c : NgForOfContext) : Bool := c.index == 0

/-- `NgForOfContext.last` getter (ng_for_of.mjs, lines 23-25). -/
def NgForOfContext.last (c : NgForOfContext) : Bool := c.index == c.count - 1

/-- `NgForOfContext.even` getter (ng_for_of.mjs, lines 26-28):
`this.index % 2 === 0`. -/
def NgForOfContext.even (c : NgForOfContext) : Bool := jsRem c.index 2 == 0

/-- `NgForOfContext.odd` getter (ng_for_of.mjs, lines 29-31): `!this.even`. -/
def NgForOfContext.odd (c : NgForOfContext) : Bool := !c.even

/-- An embedded view held by `NgForOf`'s view container: the template it was
created from and its (mutable) `NgForOfContext`. -/
structure ForView where
  tpl : Nat
  context : NgForOfContext
  deriving DecidableEq, Repr

/-- An `IterableChangeRecord` as consumed by `_applyChanges`:
the item plus its `previousIndex`/`currentIndex` (`none` models `null`). -/
structure IterableChangeRecord where
  item : JsVal
  previousIndex : Option Nat
  currentIndex : Option Nat
  deriving DecidableEq, Repr

/-- One invocation of the `forEachOperation` callback in `_applyChanges`:
the change record together with the `adjustedPreviousIndex` and
`currentIndex` arguments the differ passes alongside it. -/
structure DifferOp where
  record : IterableChangeRecord
  adjustedPreviousIndex : Option Nat
  currentIndex : Option Nat
  deriving DecidableEq, Repr

/-- An identity-change record as consumed by `forEachIdentityChange`. -/
structure IdentityRecord where
  item : JsVal
  currentIndex : Nat
  deriving DecidableEq, Repr

/-- The changes object a differ's `diff` returns (the two record streams
`_applyChanges` traverses). -/
structure DifferChanges where
  operations : List DifferOp
  identityChanges : List IdentityRecord

/-- A host `IterableDiffer`: from the current iterable value to the changes
its `diff` reports, or `none` when `diff` returns `null`. -/
def Differ := JsVal → Option DifferChanges

/-- State of one `NgForOf` directive instance (ng_for_of.mjs, lines 131-139)
together with its view container's contents. -/
structure NgForOfState where
  ngForOf : JsVal
  ngForOfDirty : Bool
  differ : Option Differ
  trackByFn : JsVal
  template : Nat
  container : List ForView

namespace NgForOf

/-- The `NgForOf` constructor (ng_for_of.mjs, lines 132-139):
`_ngForOf = null`, `_ngForOfDirty = true`, `_differ = null`; `_trackByFn`
is declared but never assigned, hence `undefined`. -/
def init (template : Nat) : NgForOfState :=
  { ngForOf := JsVal.vnull
    ngForOfDirty := true
    differ := none
    trackByFn := JsVal.vundefined
    template := template
    container := [] }

/-- The `ngForOf` input setter (ng_for_of.mjs, lines 144-147). -/
def setNgForOf (s : NgForOfState) (v : JsVal) : NgForOfState :=
  { s with ngForOf := v, ngForOfDirty := true }

/-- The `ngForTrackBy` input setter (ng_for_of.mjs, lines 166-175).  It has
no throw path: it stores `fn` unconditionally; the `Bool` component records
whether the `console.warn` branch fired (`ngDevMode` on, `fn != null`, and
`typeof fn !== 'function'`). -/
def setNgForTrackBy (ngDevMode : Bool) (s : NgForOfState) (fn : JsVal) :
    NgForOfState × Bool :=
  let warned := ngDevMode
    && !(fn == JsVal.vnull || fn == JsVal.vundefined)
    && !fn.isFunction
  ({ s with trackByFn := fn }, warned)

/-- The `ngForTrackBy` getter (ng_for_of.mjs, lines 176-178). -/
def getNgForTrackBy (s : NgForOfState) : JsVal := s.trackByFn

/-- One step of the `forEachOperation` callback in `_applyChanges`
(ng_for_of.mjs, lines 226-241): insert when `previousIndex == null`
(a fresh view created with `-1`/`-1` placeholder index and count), remove
when `currentIndex == null` (`remove()` without index removes the last
view), move otherwise when `adjustedPreviousIndex !== null`. -/
def applyOperation (tpl : Nat) (ngForOfVal : JsVal)
    (container : List ForView) (op : DifferOp) : List ForView :=
  match op.record.previousIndex with
  | none =>
    let v : ForView := ⟨tpl, ⟨op.record.item, ngForOfVal, -1, -1⟩⟩
    match op.currentIndex with
    | none => container ++ [v]
    | some i => container.insertIdx i v
  | some _ =>
    match op.currentIndex with
    | none =>
      match op.adjustedPreviousIndex with
      | none => container.dropLast
      | some i => container.eraseIdx i
    | some ci =>
      match op.adjustedPreviousIndex with
      | none => container
      | some pi_ =>
        match container[pi_]? with
        | none => container
        | some v =>
          let v := { v with context := { v.context with implicit := op.record.item } }
          (container.eraseIdx pi_).insertIdx ci v

/-- The context-normalisation loop of `_applyChanges`
(ng_for_of.mjs, lines 242-248), with the running loop index threaded
through: every view at position `i` gets `index = i`, `count = ilen`,
`ngForOf = this._ngForOf`. -/
def updateContextsFrom (ngForOfVal : JsVal) (ilen : Int) (i : Int) :
    List ForView → List ForView
  | [] => []
  | v :: rest =>
    { v with context := { v.context with index := i, count := ilen, ngForOf := ngForOfVal } }
      :: updateContextsFrom ngForOfVal ilen (i + 1) rest

/-- One step of the `forEachIdentityChange` callback
(ng_for_of.mjs, lines 249-252 together with `applyViewChange`,
lines 276-278): sets `$implicit` of the view at `record.currentIndex`. -/
def applyIdentityChange (container : List ForView) (r : IdentityRecord) :
    List ForView :=
  match container[r.currentIndex]? with
  | none => container
  | some v =>
    container.set r.currentIndex
      { v with context := { v.context with implicit := r.item } }

/-- `NgForOf._applyChanges` (ng_for_of.mjs, lines 224-253): run the
operations, normalise every context's `index`/`count`/`ngForOf`, then apply
the identity changes. -/
def applyChanges (s : NgForOfState) (changes : DifferChanges) : NgForOfState :=
  let c1 := changes.operations.foldl (applyOperation s.template s.ngForOf) s.container
  let c2 := updateContextsFrom s.ngForOf (c1.length : Int) 0 c1
  let c3 := changes.identityChanges.foldl applyIdentityChange c2
  { s with container := c3 }

/-- `NgForOf.ngDoCheck` (ng_for_of.mjs, lines 195-223).  `differs` models
the registry: `differs v` is the differ `this._differs.find(v).create(...)`
yields, `none` when `find` throws because no factory supports `v`.  The
`Bool` result is `true` when `ngDoCheck` threw the
"NgFor only supports binding to Iterables" error; the state returned then
reflects the mutations made before the throw. -/
def ngDoCheck (differs : JsVal → Option Differ) (s : NgForOfState) :
    NgForOfState × Bool :=
  let step1 : NgForOfState × Bool :=
    if s.ngForOfDirty then
      let s1 := { s with ngForOfDirty := false }
      if s1.differ.isNone && s1.ngForOf.truthy then
        match differs s1.ngForOf with
        | some d => ({ s1 with differ := some d }, false)
        | none => (s1, true)
      else (s1, false)
    else (s, false)
  if step1.2 then step1
  else
    let s2 := step1.1
    match s2.differ with
    | some d =>
      match d s2.ngForOf with
      | some changes => (applyChanges s2 changes, false)
      | none => (s2, false)
    | none => (s2, false)

end NgForOf

/-- An `NgIf` input-setter invocation, for reasoning about call sequences. -/
inductive NgIfOp where
  | setIf (condition : JsVal)
  | setThen (templateRef : JsVal)
  | setElse (templateRef : JsVal)
  deriving DecidableEq, Repr

/-- Apply one input-setter invocation to an `NgIf` state.  A call whose
`assertTemplate` throws leaves the state unchanged (the throw happens before
any mutation). -/
def NgIf.step (s : NgIfState) : NgIfOp → NgIfState
  | NgIfOp.setIf c => (NgIf.setNgIf s c).1
  | NgIfOp.setThen t => (NgIf.setNgIfThen s t).1
  | NgIfOp.setElse t => (NgIf.setNgIfElse s t).1

/-- Run a sequence of input-setter invocations from a state. -/
def NgIf.runOps (s : NgIfState) (ops : List NgIfOp) : NgIfState :=
  ops.foldl NgIf.step s

/-- State of the naive stateless reference implementation of `NgIf` from the
spec's words: it only records the current inputs. -/
structure NaiveNgIfState where
  implicit : JsVal
  ngIfCtx : JsVal
  thenTemplateRef : JsVal
  elseTemplateRef : JsVal
  deriving DecidableEq, Repr

/-- Modelled from the spec (claim C3's reference implementation): the naive
stateless rendering rule — on each update, clear the view container and
instantiate the then-template exactly when the condition is truthy, and the
else-template exactly when the condition is falsy and an else-template is
set. -/
def specNaiveRender (condition thenTemplateRef elseTemplateRef : JsVal) : List JsVal :=
  if condition.truthy then
    if thenTemplateRef.truthy then [thenTemplateRef] else []
  else
    if elseTemplateRef.truthy then [elseTemplateRef] else []

namespace NaiveNgIf

/-- Initial state of the naive reference implementation, mirroring the
`NgIf` constructor's inputs. -/
def init (templateRef : JsVal) : NaiveNgIfState :=
  { implicit := JsVal.vnull
    ngIfCtx := JsVal.vnull
    thenTemplateRef := templateRef
    elseTemplateRef := JsVal.vnull }

/-- One input-setter invocation of the naive reference implementation: it
records the input (subject to the same `assertTemplate` validation). -/
def step (s : NaiveNgIfState) : NgIfOp → NaiveNgIfState
  | NgIfOp.setIf c => { s with implicit := c, ngIfCtx := c }
  | NgIfOp.setThen t =>
    if !isTemplateRefOrNull t then s else { s with thenTemplateRef := t }
  | NgIfOp.setElse t =>
    if !isTemplateRefOrNull t then s else { s with elseTemplateRef := t }

/-- Run a sequence of invocations on the naive reference implementation. -/
def run (s : NaiveNgIfState) (ops : List NgIfOp) : NaiveNgIfState :=
  ops.foldl step s

end NaiveNgIf

/-- `NgIf._updateView` as a step relation: `UpdateViewR s (s', calls)` holds
when a run of `_updateView` from directive state `s` can end in state `s'`
having issued exactly `calls` to the view container.  The six constructors
mirror the six control-flow paths of ng_if.mjs, lines 184-205. -/
inductive UpdateViewR : NgIfState → NgIfState × List VCCall → Prop where
  | thenCached (s : NgIfState)
      (hc : s.implicit.truthy = true) (hv : s.thenViewRef.isSome = true) :
      UpdateViewR s (s, [])
  | thenCreate (s : NgIfState)
      (hc : s.implicit.truthy = true) (hv : s.thenViewRef = none)
      (ht : s.thenTemplateRef.truthy = true) :
      UpdateViewR s
        ({ s with container := [s.thenTemplateRef]
                  elseViewRef := none
                  thenViewRef := some s.thenTemplateRef },
         [VCCall.clear,
          VCCall.createEmbeddedView s.thenTemplateRef s.implicit s.ngIfCtx])
  | thenNoTemplate (s : NgIfState)
      (hc : s.implicit.truthy = true) (hv : s.thenViewRef = none)
      (ht : s.thenTemplateRef.truthy = false) :
      UpdateViewR s ({ s with container := [], elseViewRef := none }, [VCCall.clear])
  | elseCached (s : NgIfState)
      (hc : s.implicit.truthy = false) (hv : s.elseViewRef.isSome = true) :
      UpdateViewR s (s, [])
  | elseCreate (s : NgIfState)
      (hc : s.implicit.truthy = false) (hv : s.elseViewRef = none)
      (ht : s.elseTemplateRef.truthy = true) :
      UpdateViewR s
        ({ s with container := [s.elseTemplateRef]
                  thenViewRef := none
                  elseViewRef := some s.elseTemplateRef },
         [VCCall.clear,
          VCCall.createEmbeddedView s.elseTemplateRef s.implicit s.ngIfCtx])
  | elseNoTemplate (s : NgIfState)
      (hc : s.implicit.truthy = false) (hv : s.elseViewRef = none)
      (ht : s.elseTemplateRef.truthy = false) :
      UpdateViewR s ({ s with container := [], thenViewRef := none }, [VCCall.clear])

/-- The `ngIf` condition setter as a step relation: first both context
fields are set to the condition, then `_updateView` runs. -/
def SetNgIfR (s : NgIfState) (condition : JsVal) (r : NgIfState × List VCCall) : Prop :=
  UpdateViewR { s with implicit := condition, ngIfCtx := condition } r

/-- A JSON value as validated against the sass-loader options schema
(`jfun` stands for a JS function value, the target of
`instanceof Function`). -/
inductive Json where
  | jnull
  | jbool (b : Bool)
  | jnum (n : Int)
  | jstr (s : String)
  | jfun (id : Nat)
  | jobj (fields : List (String × Json))
  | jarr (elems : List Json)

/-- `true` for a JSON boolean. -/
def Json.isBool : Json → Bool
  | Json.jbool _ => true
  | _ => false

/-- The schema of a single declared property of the sass-loader options
object.  These are the only property-level keyword combinations
options.json uses: `type: string`, `type: boolean`, `type: object`
(with or without `additionalProperties: true`, which changes nothing for a
schema without `properties`), `instanceof: Function`, and two-alternative
`anyOf`. -/
inductive PropSchema where
  | pString
  | pBoolean
  | pObjectAny
  | pFunction
  | pAnyOf2 (a b : PropSchema)
  deriving DecidableEq, Repr

/-- JSON Schema validation of a value against a property schema. -/
def validateProp : PropSchema → Json → Bool
  | PropSchema.pString, v => match v with | Json.jstr _ => true | _ => false
  | PropSchema.pBoolean, v => v.isBool
  | PropSchema.pObjectAny, v => match v with | Json.jobj _ => true | _ => false
  | PropSchema.pFunction, v => match v with | Json.jfun _ => true | _ => false
  | PropSchema.pAnyOf2 a b, v => validateProp a v || validateProp b v

/-- An object-level JSON Schema: declared properties and the
`additionalProperties` flag. -/
structure ObjectSchema where
  properties : List (String × PropSchema)
  additionalProperties : Bool
  deriving DecidableEq, Repr

/-- JSON Schema validation of a value against an object schema
(draft semantics: `type: object` rejects non-objects; each present field
named in `properties` must validate against its property schema; a field
not named in `properties` is governed by `additionalProperties`; no
property is required). -/
def validateObject (sch : ObjectSchema) : Json → Bool
  | Json.jobj fields =>
    fields.all fun kv =>
      match sch.properties.lookup kv.1 with
      | some p => validateProp p kv.2
      | none => sch.additionalProperties
  | _ => false

/-- The sass-loader options schema
(src/view/node_mdules/sass-loader/dist/options.json), transcribed keyword
for keyword (`description`/`link` annotations do not affect validation and
are omitted). -/
def sassLoaderOptionsSchema : ObjectSchema :=
  { properties :=
      [("implementation", PropSchema.pAnyOf2 PropSchema.pString PropSchema.pObjectAny),
       ("sassOptions", PropSchema.pAnyOf2 PropSchema.pObjectAny PropSchema.pFunction),
       ("additionalData", PropSchema.pAnyOf2 PropSchema.pString PropSchema.pFunction),
       ("sourceMap", PropSchema.pBoolean),
       ("webpackImporter", PropSchema.pBoolean),
       ("warnRuleAsWarning", PropSchema.pBoolean)]
    additionalProperties := false }

/-- Truncated remainder by two vanishes exactly when the Euclidean
remainder by two does. -/
theorem tmod_two_eq_zero_iff_emod (x : Int) : Int.tmod x 2 = 0 ↔ x % 2 = 0 := by
  constructor
  · intro h
    have : (2 : Int) ∣ x := Int.dvd_of_tmod_eq_zero h
    omega
  · intro h
    have : (2 : Int) ∣ x := by omega
    exact Int.tmod_eq_zero_of_dvd this

/-- C8: for every `NgForOfContext`, `first` is true iff `index = 0`, `last`
is true iff `index = count - 1`, `even` is true iff `index mod 2 = 0`, `odd`
is the negation of `even`, and for non-negative `index` exactly one of
`even` and `odd` holds. -/
theorem ngForOfContext_getter_relations (c : NgForOfContext) :
    (c.first = true ↔ c.index = 0) ∧
    (c.last = true ↔ c.index = c.count - 1) ∧
    (c.even = true ↔ c.index % 2 = 0) ∧
    (c.odd = !c.even) ∧
    (0 ≤ c.index →
      (c.even = true ∨ c.odd = true) ∧ ¬(c.even = true ∧ c.odd = true)) := by
  refine ⟨?_, ?_, ?_, rfl, ?_⟩
  · simp [NgForOfContext.first]
  · simp [NgForOfContext.last]
  · simp only [NgForOfContext.even, jsRem, beq_iff_eq]
    exact tmod_two_eq_zero_iff_emod c.index
  · intro _
    cases h : c.even <;> simp [NgForOfContext.odd, h]

/-- Witness for `ngForOfContext_getter_relations` at a concrete context. -/
theorem ngForOfContext_getter_relations_witness :
    (0 : Int) ≤ (NgForOfContext.mk JsVal.vnull JsVal.vnull 0 3).index ∧
    (((NgForOfContext.mk JsVal.vnull JsVal.vnull 0 3).even = true ∨
      (NgForOfContext.mk JsVal.vnull JsVal.vnull 0 3).odd = true) ∧
     ¬((NgForOfContext.mk JsVal.vnull JsVal.vnull 0 3).even = true ∧
       (NgForOfContext.mk JsVal.vnull JsVal.vnull 0 3).odd = true)) :=
  ⟨by decide,
   (ngForOfContext_getter_relations (NgForOfContext.mk JsVal.vnull JsVal.vnull 0 3)).2.2.2.2
     (by decide)⟩

/-- C6: the `ngForTrackBy` setter stores `fn` verbatim (so the getter then
returns `fn`) for every value `fn`, including non-functions; it has no
throw path, and the `console.warn` branch fires exactly when dev mode is on,
`fn` is neither null nor undefined, and `fn` is not a function. -/
theorem ngForTrackBy_setter_total (ngDevMode : Bool) (s : NgForOfState) (fn : JsVal) :
    (NgForOf.setNgForTrackBy ngDevMode s fn).1 = { s with trackByFn := fn } ∧
    NgForOf.getNgForTrackBy (NgForOf.setNgForTrackBy ngDevMode s fn).1 = fn ∧
    ((NgForOf.setNgForTrackBy ngDevMode s fn).2 = true ↔
      ngDevMode = true ∧ fn ≠ JsVal.vnull ∧ fn ≠ JsVal.vundefined ∧
      fn.isFunction = false) := by
  refine ⟨rfl, rfl, ?_⟩
  simp only [NgForOf.setNgForTrackBy, Bool.and_eq_true, Bool.not_eq_true',
    Bool.or_eq_false_iff, beq_eq_false_iff_ne, ne_eq, Bool.not_eq_true]
  tauto

/-- C1 counterexample: `false` is neither null, nor undefined, nor an object
with a `createEmbeddedView` property, yet `ngIfThen` accepts it without
throwing (`assertTemplate` passes every falsy value). -/
theorem ngIfThen_falsy_accepted_counterexample :
    (NgIf.setNgIfThen (NgIf.init (JsVal.vobj 0 (JsVal.vfun 0))) (JsVal.vbool false)).2.2 = false ∧
    JsVal.vbool false ≠ JsVal.vnull ∧
    JsVal.vbool false ≠ JsVal.vundefined ∧
    JsVal.hasCreateEmbeddedViewProp (JsVal.vbool false) = false := by decide

/-- C1 (amended): `ngIfThen`/`ngIfElse` throw exactly when the value is
truthy and its `createEmbeddedView` property is not truthy; a failed call
leaves the directive state unchanged and issues no view-container call, and
a falsy value or one with a truthy `createEmbeddedView` never throws. -/
theorem ngIfThen_ngIfElse_assert_guards (s : NgIfState) (v : JsVal) :
    ((NgIf.setNgIfThen s v).2.2 = true ↔
      v.truthy = true ∧ v.createEmbeddedViewProp.truthy = false) ∧
    ((NgIf.setNgIfThen s v).2.2 = true → NgIf.setNgIfThen s v = (s, [], true)) ∧
    ((NgIf.setNgIfElse s v).2.2 = true ↔
      v.truthy = true ∧ v.createEmbeddedViewProp.truthy = false) ∧
    ((NgIf.setNgIfElse s v).2.2 = true → NgIf.setNgIfElse s v = (s, [], true)) := by
  have hiff : (!isTemplateRefOrNull v) = true ↔
      v.truthy = true ∧ v.createEmbeddedViewProp.truthy = false := by
    simp [isTemplateRefOrNull]
  by_cases h : (!isTemplateRefOrNull v) = true
  · refine ⟨?_, ?_, ?_, ?_⟩ <;>
      simp [NgIf.setNgIfThen, NgIf.setNgIfElse, h, hiff.mp h]
  · have h' : isTemplateRefOrNull v = true := by simpa using h
    have himp : v.truthy = true → v.createEmbeddedViewProp.truthy = true := by
      intro ht
      simpa [isTemplateRefOrNull, ht] using h'
    refine ⟨?_, ?_, ?_, ?_⟩ <;>
      simp [NgIf.setNgIfThen, NgIf.setNgIfElse, h] <;> exact himp

/-- Witness for `ngIfThen_ngIfElse_assert_guards`: the number `5` is truthy
without a truthy `createEmbeddedView`, so the setter throws and leaves the
state untouched. -/
theorem ngIfThen_ngIfElse_assert_guards_witness :
    (NgIf.setNgIfThen (NgIf.init JsVal.vnull) (JsVal.vnum 5)).2.2 = true ∧
    NgIf.setNgIfThen (NgIf.init JsVal.vnull) (JsVal.vnum 5)
      = (NgIf.init JsVal.vnull, [], true) := by
  have h := ngIfThen_ngIfElse_assert_guards (NgIf.init JsVal.vnull) (JsVal.vnum 5)
  exact ⟨h.1.mpr (by decide), h.2.1 (h.1.mpr (by decide))⟩

/-- A concrete `NgForOf` state refuting C2 as stated: not dirty, no differ,
truthy unsupported value. -/
def ngForOfStateStale : NgForOfState :=
  { ngForOf := JsVal.vnum 1
    ngForOfDirty := false
    differ := none
    trackByFn := JsVal.vundefined
    template := 0
    container := [] }

/-- C2 counterexample: with `_ngForOfDirty = false`, no differ, a truthy
`ngForOf` value and an empty differ registry, `ngDoCheck` returns without
throwing, although the claim's three conditions for a throw all hold. -/
theorem ngDoCheck_stale_no_throw_counterexample :
    (NgForOf.ngDoCheck (fun _ => none) ngForOfStateStale).2 = false ∧
    ngForOfStateStale.differ = none ∧
    ngForOfStateStale.ngForOf.truthy = true ∧
    (fun _ => (none : Option Differ)) ngForOfStateStale.ngForOf = none :=
  ⟨rfl, rfl, rfl, rfl⟩

/-- C2 (amended): `ngDoCheck` throws exactly when the `ngForOf` input is
dirty, no differ has been created, the current value is truthy, and the
registry has no factory supporting it; on a throw the differ stays absent
and the container is untouched, and with a null or undefined value and no
differ it creates no differ, throws nothing and leaves the container
alone. -/
theorem ngDoCheck_throw_characterisation (differs : JsVal → Option Differ)
    (s : NgForOfState) :
    ((NgForOf.ngDoCheck differs s).2 = true ↔
      s.ngForOfDirty = true ∧ s.differ = none ∧ s.ngForOf.truthy = true ∧
      differs s.ngForOf = none) ∧
    ((NgForOf.ngDoCheck differs s).2 = true →
      (NgForOf.ngDoCheck differs s).1.differ = none ∧
      (NgForOf.ngDoCheck differs s).1.container = s.container) ∧
    ((s.ngForOf = JsVal.vnull ∨ s.ngForOf = JsVal.vundefined) → s.differ = none →
      (NgForOf.ngDoCheck differs s).2 = false ∧
      (NgForOf.ngDoCheck differs s).1.differ = none ∧
      (NgForOf.ngDoCheck differs s).1.container = s.container) := by
  cases hdirty : s.ngForOfDirty with
  | false =>
    cases hdiff : s.differ with
    | none =>
      refine ⟨by simp [NgForOf.ngDoCheck, hdirty, hdiff], ?_, ?_⟩
      · simp [NgForOf.ngDoCheck, hdirty, hdiff]
      · intro _ _
        simp [NgForOf.ngDoCheck, hdirty, hdiff]
    | some d =>
      cases hd : d s.ngForOf with
      | none =>
        refine ⟨by simp [NgForOf.ngDoCheck, hdirty, hdiff, hd], ?_, ?_⟩
        · simp [NgForOf.ngDoCheck, hdirty, hdiff, hd]
        · intro _ hnone
          simp [hdiff] at hnone
      | some changes =>
        refine ⟨by simp [NgForOf.ngDoCheck, hdirty, hdiff, hd], ?_, ?_⟩
        · simp [NgForOf.ngDoCheck, hdirty, hdiff, hd]
        · intro _ hnone
          simp [hdiff] at hnone
  | true =>
    cases hdiff : s.differ with
    | some d =>
      cases hd : d s.ngForOf with
      | none =>
        refine ⟨by simp [NgForOf.ngDoCheck, hdirty, hdiff, hd], ?_, ?_⟩
        · simp [NgForOf.ngDoCheck, hdirty, hdiff, hd]
        · intro _ hnone
          simp [hdiff] at hnone
      | some changes =>
        refine ⟨by simp [NgForOf.ngDoCheck, hdirty, hdiff, hd], ?_, ?_⟩
        · simp [NgForOf.ngDoCheck, hdirty, hdiff, hd]
        · intro _ hnone
          simp [hdiff] at hnone
    | none =>
      cases htruthy : s.ngForOf.truthy with
      | false =>
        refine ⟨by simp [NgForOf.ngDoCheck, hdirty, hdiff, htruthy], ?_, ?_⟩
        · simp [NgForOf.ngDoCheck, hdirty, hdiff, htruthy]
        · intro _ _
          simp [NgForOf.ngDoCheck, hdirty, hdiff, htruthy]
      | true =>
        cases hreg : differs s.ngForOf with
        | none =>
          refine ⟨by simp [NgForOf.ngDoCheck, hdirty, hdiff, htruthy, hreg], ?_, ?_⟩
          · intro _
            simp [NgForOf.ngDoCheck, hdirty, hdiff, htruthy, hreg]
          · intro hnull _
            rcases hnull with h | h <;> rw [h] at htruthy <;> simp [JsVal.truthy] at htruthy
        | some d =>
          cases hd : d s.ngForOf with
          | none =>
            refine ⟨by simp [NgForOf.ngDoCheck, hdirty, hdiff, htruthy, hreg, hd], ?_, ?_⟩
            · simp [NgForOf.ngDoCheck, hdirty, hdiff, htruthy, hreg, hd]
            · intro hnull _
              rcases hnull with h | h <;> rw [h] at htruthy <;> simp [JsVal.truthy] at htruthy
          | some changes =>
            refine ⟨by simp [NgForOf.ngDoCheck, hdirty, hdiff, htruthy, hreg, hd], ?_, ?_⟩
            · simp [NgForOf.ngDoCheck, hdirty, hdiff, htruthy, hreg, hd]
            · intro hnull _
              rcases hnull with h | h <;> rw [h] at htruthy <;> simp [JsVal.truthy] at htruthy

/-- A concrete dirty `NgForOf` state on which `ngDoCheck` throws. -/
def ngForOfStateDirty : NgForOfState :=
  { ngForOf := JsVal.vnum 1
    ngForOfDirty := true
    differ := none
    trackByFn := JsVal.vundefined
    template := 0
    container := [] }

/-- A concrete `NgForOf` state with a null value and no differ. -/
def ngForOfStateNull : NgForOfState :=
  { ngForOf := JsVal.vnull
    ngForOfDirty := true
    differ := none
    trackByFn := JsVal.vundefined
    template := 0
    container := [] }

/-- Witness for `ngDoCheck_throw_characterisation`: a dirty state with a
truthy unsupported value throws with the container untouched, and a dirty
state with a null value runs through silently. -/
theorem ngDoCheck_throw_characterisation_witness :
    ((NgForOf.ngDoCheck (fun _ => none) ngForOfStateDirty).1.differ = none ∧
     (NgForOf.ngDoCheck (fun _ => none) ngForOfStateDirty).1.container
       = ngForOfStateDirty.container) ∧
    ((NgForOf.ngDoCheck (fun _ => none) ngForOfStateNull).2 = false ∧
     (NgForOf.ngDoCheck (fun _ => none) ngForOfStateNull).1.differ = none ∧
     (NgForOf.ngDoCheck (fun _ => none) ngForOfStateNull).1.container
       = ngForOfStateNull.container) := by
  have h1 := ngDoCheck_throw_characterisation (fun _ => none) ngForOfStateDirty
  have h2 := ngDoCheck_throw_characterisation (fun _ => none) ngForOfStateNull
  exact ⟨h1.2.1 (h1.1.mpr ⟨rfl, rfl, rfl, rfl⟩), h2.2.2 (Or.inl rfl) rfl⟩

/-- C7: the sass-loader options schema declares exactly the six properties
`implementation`, `sassOptions`, `additionalData`, `sourceMap`,
`webpackImporter`, `warnRuleAsWarning` with `additionalProperties: false`;
consequently an options object carrying any other key fails validation, and
the three boolean-typed options validate only against booleans. -/
theorem sassLoaderOptionsSchema_strict (fields : List (String × Json)) (k : String) (v : Json) :
    sassLoaderOptionsSchema.properties.map Prod.fst =
      ["implementation", "sassOptions", "additionalData", "sourceMap",
       "webpackImporter", "warnRuleAsWarning"] ∧
    sassLoaderOptionsSchema.additionalProperties = false ∧
    ((k, v) ∈ fields →
      k ∉ ["implementation", "sassOptions", "additionalData", "sourceMap",
           "webpackImporter", "warnRuleAsWarning"] →
      validateObject sassLoaderOptionsSchema (Json.jobj fields) = false) ∧
    ((k, v) ∈ fields →
      k ∈ ["sourceMap", "webpackImporter", "warnRuleAsWarning"] →
      validateObject sassLoaderOptionsSchema (Json.jobj fields) = true →
      v.isBool = true) := by
  refine ⟨rfl, rfl, ?_, ?_⟩
  · intro hmem hnot
    simp only [List.mem_cons, List.not_mem_nil, or_false, not_or] at hnot
    obtain ⟨h1, h2, h3, h4, h5, h6⟩ := hnot
    have e1 : (k == "implementation") = false := beq_eq_false_iff_ne.mpr h1
    have e2 : (k == "sassOptions") = false := beq_eq_false_iff_ne.mpr h2
    have e3 : (k == "additionalData") = false := beq_eq_false_iff_ne.mpr h3
    have e4 : (k == "sourceMap") = false := beq_eq_false_iff_ne.mpr h4
    have e5 : (k == "webpackImporter") = false := beq_eq_false_iff_ne.mpr h5
    have e6 : (k == "warnRuleAsWarning") = false := beq_eq_false_iff_ne.mpr h6
    refine Bool.eq_false_iff.mpr ?_
    intro hall
    simp only [validateObject, List.all_eq_true] at hall
    have := hall (k, v) hmem
    simp [sassLoaderOptionsSchema, List.lookup, e1, e2, e3, e4, e5, e6] at this
  · intro hmem hk hall
    simp only [validateObject, List.all_eq_true] at hall
    have hv := hall (k, v) hmem
    simp only [List.mem_cons, List.not_mem_nil, or_false] at hk
    rcases hk with h | h | h <;> subst h <;>
      simpa [sassLoaderOptionsSchema, List.lookup, validateProp] using hv

/-- Witness for `sassLoaderOptionsSchema_strict`: an object with the stray
key `foo` fails validation, and a validating object's `sourceMap` value is
a boolean. -/
theorem sassLoaderOptionsSchema_strict_witness :
    validateObject sassLoaderOptionsSchema (Json.jobj [("foo", Json.jnum 1)]) = false ∧
    (Json.jbool true).isBool = true := by
  have h1 := sassLoaderOptionsSchema_strict [("foo", Json.jnum 1)] "foo" (Json.jnum 1)
  have h2 := sassLoaderOptionsSchema_strict [("sourceMap", Json.jbool true)]
    "sourceMap" (Json.jbool true)
  refine ⟨h1.2.2.1 (by simp) (by simp), ?_⟩
  refine h2.2.2.2 (by simp) (by simp) ?_
  simp [validateObject, sassLoaderOptionsSchema, List.lookup, validateProp, Json.isBool]

/-- `_updateView` never touches the context fields or the stored template
references. -/
theorem updateView_fixed_fields (s : NgIfState) :
    (NgIf.updateView s).1.implicit = s.implicit ∧
    (NgIf.updateView s).1.ngIfCtx = s.ngIfCtx ∧
    (NgIf.updateView s).1.thenTemplateRef = s.thenTemplateRef ∧
    (NgIf.updateView s).1.elseTemplateRef = s.elseTemplateRef := by
  unfold NgIf.updateView
  by_cases hc : s.implicit.truthy = true
  · by_cases hv : s.thenViewRef.isSome = true
    · simp [hc, hv]
    · by_cases ht : s.thenTemplateRef.truthy = true <;> simp [hc, hv, ht]
  · by_cases hv : s.elseViewRef.isSome = true
    · simp [hc, hv]
    · by_cases ht : s.elseTemplateRef.truthy = true <;> simp [hc, hv, ht]

/-- `_updateView` leaves at most one of the cached view refs populated,
provided at most one was populated before the call. -/
theorem updateView_atMostOne (s : NgIfState)
    (h : s.thenViewRef = none ∨ s.elseViewRef = none) :
    (NgIf.updateView s).1.thenViewRef = none ∨ (NgIf.updateView s).1.elseViewRef = none := by
  unfold NgIf.updateView
  by_cases hc : s.implicit.truthy = true
  · by_cases hv : s.thenViewRef.isSome = true
    · simpa [hc, hv] using h
    · by_cases ht : s.thenTemplateRef.truthy = true <;> simp [hc, hv, ht]
  · by_cases hv : s.elseViewRef.isSome = true
    · simpa [hc, hv] using h
    · by_cases ht : s.elseTemplateRef.truthy = true <;> simp [hc, hv, ht]

/-- C9: `NgIf` keeps at most one of `_thenViewRef` and `_elseViewRef`
non-null: the invariant holds after the constructor and is preserved by
each of the three input setters; moreover the `ngIf` setter re-establishes
`_context.$implicit = _context.ngIf = condition`. -/
theorem ngIf_at_most_one_view_invariant (t c v : JsVal) (s : NgIfState)
    (h : s.thenViewRef = none ∨ s.elseViewRef = none) :
    ((NgIf.init t).thenViewRef = none ∨ (NgIf.init t).elseViewRef = none) ∧
    ((NgIf.setNgIf s c).1.thenViewRef = none ∨ (NgIf.setNgIf s c).1.elseViewRef = none) ∧
    (NgIf.setNgIf s c).1.implicit = c ∧
    (NgIf.setNgIf s c).1.ngIfCtx = c ∧
    ((NgIf.setNgIfThen s v).1.thenViewRef = none ∨
      (NgIf.setNgIfThen s v).1.elseViewRef = none) ∧
    ((NgIf.setNgIfElse s v).1.thenViewRef = none ∨
      (NgIf.setNgIfElse s v).1.elseViewRef = none) := by
  refine ⟨Or.inl rfl, ?_, ?_, ?_, ?_, ?_⟩
  · exact updateView_atMostOne _ (by simpa using h)
  · exact (updateView_fixed_fields { s with implicit := c, ngIfCtx := c }).1
  · exact (updateView_fixed_fields { s with implicit := c, ngIfCtx := c }).2.1
  · unfold NgIf.setNgIfThen
    by_cases hthrow : (!isTemplateRefOrNull v) = true
    · simpa [hthrow] using h
    · simpa [hthrow] using
        updateView_atMostOne { s with thenTemplateRef := v, thenViewRef := none }
          (Or.inl rfl)
  · unfold NgIf.setNgIfElse
    by_cases hthrow : (!isTemplateRefOrNull v) = true
    · simpa [hthrow] using h
    · simpa [hthrow] using
        updateView_atMostOne { s with elseTemplateRef := v, elseViewRef := none }
          (Or.inr rfl)

/-- Witness for `ngIf_at_most_one_view_invariant` at the constructor state
and concrete inputs. -/
theorem ngIf_at_most_one_view_invariant_witness :
    ((NgIf.setNgIf (NgIf.init (JsVal.vobj 0 (JsVal.vfun 0))) (JsVal.vbool true)).1.thenViewRef = none ∨
      (NgIf.setNgIf (NgIf.init (JsVal.vobj 0 (JsVal.vfun 0))) (JsVal.vbool true)).1.elseViewRef = none) ∧
    (NgIf.setNgIf (NgIf.init (JsVal.vobj 0 (JsVal.vfun 0))) (JsVal.vbool true)).1.implicit
      = JsVal.vbool true :=
  ⟨(ngIf_at_most_one_view_invariant (JsVal.vobj 0 (JsVal.vfun 0)) (JsVal.vbool true)
      (JsVal.vobj 1 (JsVal.vfun 1)) (NgIf.init (JsVal.vobj 0 (JsVal.vfun 0)))
      (Or.inl rfl)).2.1,
   (ngIf_at_most_one_view_invariant (JsVal.vobj 0 (JsVal.vfun 0)) (JsVal.vbool true)
      (JsVal.vobj 1 (JsVal.vfun 1)) (NgIf.init (JsVal.vobj 0 (JsVal.vfun 0)))
      (Or.inl rfl)).2.2.1⟩

/-- Applying `_updateView` a second time changes nothing and issues no
`createEmbeddedView` call. -/
theorem updateView_idempotent (s : NgIfState) :
    (NgIf.updateView (NgIf.updateView s).1).1 = (NgIf.updateView s).1 ∧
    ((NgIf.updateView (NgIf.updateView s).1).2.all fun vc => !vc.isCreate) = true := by
  unfold NgIf.updateView
  by_cases hc : s.implicit.truthy = true
  · by_cases hv : s.thenViewRef.isSome = true
    · simp [hc, hv]
    · by_cases ht : s.thenTemplateRef.truthy = true
      · simp [hc, hv, ht, VCCall.isCreate]
      · simp [hc, hv, ht, VCCall.isCreate]
  · by_cases hv : s.elseViewRef.isSome = true
    · simp [hc, hv]
    · by_cases ht : s.elseTemplateRef.truthy = true
      · simp [hc, hv, ht, VCCall.isCreate]
      · simp [hc, hv, ht, VCCall.isCreate]

/-- C10: the `ngIf` condition setter is idempotent — holds for every
directive state (so in particular for every reachable one): repeating the
setter with the same condition leaves the state, and hence the
view-container contents, unchanged, and the repeat issues no
`createEmbeddedView` call. -/
theorem ngIf_setter_idempotent (s : NgIfState) (c : JsVal) :
    (NgIf.setNgIf (NgIf.setNgIf s c).1 c).1 = (NgIf.setNgIf s c).1 ∧
    ((NgIf.setNgIf (NgIf.setNgIf s c).1 c).2.all fun vc => !vc.isCreate) = true := by
  have hgen : ∀ x : NgIfState, x.implicit = c → x.ngIfCtx = c →
      ({ x with implicit := c, ngIfCtx := c } : NgIfState) = x := by
    intro x h1 h2
    cases x
    simp_all
  have hfix1 : (NgIf.setNgIf s c).1.implicit = c :=
    (updateView_fixed_fields { s with implicit := c, ngIfCtx := c }).1
  have hfix2 : (NgIf.setNgIf s c).1.ngIfCtx = c :=
    (updateView_fixed_fields { s with implicit := c, ngIfCtx := c }).2.1
  have key : NgIf.setNgIf (NgIf.setNgIf s c).1 c
      = NgIf.updateView (NgIf.setNgIf s c).1 := by
    show NgIf.updateView { (NgIf.setNgIf s c).1 with implicit := c, ngIfCtx := c }
        = NgIf.updateView (NgIf.setNgIf s c).1
    rw [hgen _ hfix1 hfix2]
  rw [key]
  exact updateView_idempotent { s with implicit := c, ngIfCtx := c }

/-- C5: `_updateView`, and with it the `ngIf` condition setter, is
deterministic — two runs of the step relation from the same directive state
end in the same state and issue the identical sequence of view-container
calls. -/
theorem updateView_deterministic (s : NgIfState) (c : JsVal)
    (r1 r2 : NgIfState × List VCCall)
    (h1 : SetNgIfR s c r1) (h2 : SetNgIfR s c r2) : r1 = r2 := by
  unfold SetNgIfR at h1 h2
  cases h1 <;> cases h2 <;> simp_all

/-- The functional translation of `_updateView` realises the step
relation. -/
theorem updateViewR_updateView (s : NgIfState) : UpdateViewR s (NgIf.updateView s) := by
  unfold NgIf.updateView
  by_cases hc : s.implicit.truthy = true
  · by_cases hv : s.thenViewRef.isSome = true
    · simpa [hc, hv] using UpdateViewR.thenCached s hc hv
    · have hv' : s.thenViewRef = none := by
        cases h : s.thenViewRef <;> simp_all
      by_cases ht : s.thenTemplateRef.truthy = true
      · simpa [hc, hv, ht] using UpdateViewR.thenCreate s hc hv' ht
      · have ht' : s.thenTemplateRef.truthy = false := by simpa using ht
        simpa [hc, hv, ht'] using UpdateViewR.thenNoTemplate s hc hv' ht'
  · have hc' : s.implicit.truthy = false := by simpa using hc
    by_cases hv : s.elseViewRef.isSome = true
    · simpa [hc', hv] using UpdateViewR.elseCached s hc' hv
    · have hv' : s.elseViewRef = none := by
        cases h : s.elseViewRef <;> simp_all
      by_cases ht : s.elseTemplateRef.truthy = true
      · simpa [hc', hv, ht] using UpdateViewR.elseCreate s hc' hv' ht
      · have ht' : s.elseTemplateRef.truthy = false := by simpa using ht
        simpa [hc', hv, ht'] using UpdateViewR.elseNoTemplate s hc' hv' ht'

/-- Witness for `updateView_deterministic`: at the constructor state with a
truthy condition, any run of the relation must produce exactly what the
functional translation produces. -/
theorem updateView_deterministic_witness :
    NgIf.setNgIf (NgIf.init (JsVal.vobj 0 (JsVal.vfun 0))) (JsVal.vbool true)
      = ({ implicit := JsVal.vbool true
           ngIfCtx := JsVal.vbool true
           thenTemplateRef := JsVal.vobj 0 (JsVal.vfun 0)
           elseTemplateRef := JsVal.vnull
           thenViewRef := some (JsVal.vobj 0 (JsVal.vfun 0))
           elseViewRef := none
           container := [JsVal.vobj 0 (JsVal.vfun 0)] },
         [VCCall.clear,
          VCCall.createEmbeddedView (JsVal.vobj 0 (JsVal.vfun 0))
            (JsVal.vbool true) (JsVal.vbool true)]) :=
  updateView_deterministic (NgIf.init (JsVal.vobj 0 (JsVal.vfun 0))) (JsVal.vbool true)
    _ _
    (updateViewR_updateView _)
    (UpdateViewR.thenCreate _ (by decide) (by decide) (by decide))

/-- The caching invariant of `NgIf`: a cached view ref always wraps the
current matching template, and then that single view is the whole
container. -/
def CacheInv (s : NgIfState) : Prop :=
  (∀ t, s.thenViewRef = some t →
    t = s.thenTemplateRef ∧ s.container = [t] ∧ t.truthy = true) ∧
  (∀ e, s.elseViewRef = some e →
    e = s.elseTemplateRef ∧ s.container = [e] ∧ e.truthy = true)

/-- From any state satisfying the caching invariant, `_updateView`
re-establishes the invariant and leaves the container exactly as the naive
stateless rule renders the current inputs. -/
theorem updateView_render (s : NgIfState) (h : CacheInv s) :
    CacheInv (NgIf.updateView s).1 ∧
    (NgIf.updateView s).1.container
      = specNaiveRender s.implicit s.thenTemplateRef s.elseTemplateRef := by
  obtain ⟨hthen, helse⟩ := h
  cases hc : s.implicit.truthy with
  | true =>
    cases hv : s.thenViewRef with
    | some t =>
      obtain ⟨h1, h2, h3⟩ := hthen t hv
      subst h1
      have hres : (NgIf.updateView s).1 = s := by
        simp [NgIf.updateView, hc, hv]
      rw [hres]
      exact ⟨⟨hthen, helse⟩, by simp [specNaiveRender, hc, h3, h2]⟩
    | none =>
      cases ht : s.thenTemplateRef.truthy with
      | true =>
        have hres : (NgIf.updateView s).1
            = { s with container := [s.thenTemplateRef], elseViewRef := none,
                       thenViewRef := some s.thenTemplateRef } := by
          simp [NgIf.updateView, hc, hv, ht]
        rw [hres]
        refine ⟨⟨?_, ?_⟩, ?_⟩
        · intro t hsome
          have hx : some s.thenTemplateRef = some t := hsome
          injection hx with hx2
          subst hx2
          exact ⟨rfl, rfl, ht⟩
        · intro e hsome
          exact absurd hsome (by simp)
        · simp [specNaiveRender, hc, ht]
      | false =>
        have hres : (NgIf.updateView s).1
            = { s with container := [], elseViewRef := none } := by
          simp [NgIf.updateView, hc, hv, ht]
        rw [hres]
        refine ⟨⟨?_, ?_⟩, ?_⟩
        · intro t hsome
          have hx : s.thenViewRef = some t := hsome
          rw [hv] at hx
          simp at hx
        · intro e hsome
          exact absurd hsome (by simp)
        · simp [specNaiveRender, hc, ht]
  | false =>
    cases hv : s.elseViewRef with
    | some e =>
      obtain ⟨h1, h2, h3⟩ := helse e hv
      subst h1
      have hres : (NgIf.updateView s).1 = s := by
        simp [NgIf.updateView, hc, hv]
      rw [hres]
      exact ⟨⟨hthen, helse⟩, by simp [specNaiveRender, hc, h3, h2]⟩
    | none =>
      cases ht : s.elseTemplateRef.truthy with
      | true =>
        have hres : (NgIf.updateView s).1
            = { s with container := [s.elseTemplateRef], thenViewRef := none,
                       elseViewRef := some s.elseTemplateRef } := by
          simp [NgIf.updateView, hc, hv, ht]
        rw [hres]
        refine ⟨⟨?_, ?_⟩, ?_⟩
        · intro t hsome
          exact absurd hsome (by simp)
        · intro e hsome
          have hx : some s.elseTemplateRef = some e := hsome
          injection hx with hx2
          subst hx2
          exact ⟨rfl, rfl, ht⟩
        · simp [specNaiveRender, hc, ht]
      | false =>
        have hres : (NgIf.updateView s).1
            = { s with container := [], thenViewRef := none } := by
          simp [NgIf.updateView, hc, hv, ht]
        rw [hres]
        refine ⟨⟨?_, ?_⟩, ?_⟩
        · intro t hsome
          exact absurd hsome (by simp)
        · intro e hsome
          have hx : s.elseViewRef = some e := hsome
          rw [hv] at hx
          simp at hx
        · simp [specNaiveRender, hc, ht]

/-- The one-state synchronisation invariant for claim C3: the caching
invariant holds and the container matches the naive stateless rendering of
the current inputs. -/
def SyncInv (s : NgIfState) : Prop :=
  CacheInv s ∧
  s.container = specNaiveRender s.implicit s.thenTemplateRef s.elseTemplateRef

/-- Every input-setter invocation preserves the synchronisation
invariant. -/
theorem step_syncInv (s : NgIfState) (op : NgIfOp) (h : SyncInv s) :
    SyncInv (NgIf.step s op) := by
  obtain ⟨hcache, hsync⟩ := h
  obtain ⟨hthen, helse⟩ := hcache
  cases op with
  | setIf c =>
    have hc' : CacheInv { s with implicit := c, ngIfCtx := c } :=
      ⟨by simpa using hthen, by simpa using helse⟩
    have hr := updateView_render _ hc'
    have hf := updateView_fixed_fields { s with implicit := c, ngIfCtx := c }
    have hstep : NgIf.step s (NgIfOp.setIf c)
        = (NgIf.updateView { s with implicit := c, ngIfCtx := c }).1 := rfl
    rw [SyncInv, hstep]
    refine ⟨hr.1, ?_⟩
    rw [hf.1, hf.2.2.1, hf.2.2.2]
    exact hr.2
  | setThen t =>
    by_cases hth : (!isTemplateRefOrNull t) = true
    · have hstep : NgIf.step s (NgIfOp.setThen t) = s := by
        simp [NgIf.step, NgIf.setNgIfThen, hth]
      rw [hstep]
      exact ⟨⟨hthen, helse⟩, hsync⟩
    · have hc' : CacheInv { s with thenTemplateRef := t, thenViewRef := none } := by
        refine ⟨?_, ?_⟩
        · intro t' hsome
          simp at hsome
        · intro e hsome
          simpa using helse e (by simpa using hsome)
      have hr := updateView_render _ hc'
      have hf := updateView_fixed_fields { s with thenTemplateRef := t, thenViewRef := none }
      have hstep : NgIf.step s (NgIfOp.setThen t)
          = (NgIf.updateView { s with thenTemplateRef := t, thenViewRef := none }).1 := by
        simp [NgIf.step, NgIf.setNgIfThen, hth]
      rw [SyncInv, hstep]
      refine ⟨hr.1, ?_⟩
      rw [hf.1, hf.2.2.1, hf.2.2.2]
      exact hr.2
  | setElse t =>
    by_cases hth : (!isTemplateRefOrNull t) = true
    · have hstep : NgIf.step s (NgIfOp.setElse t) = s := by
        simp [NgIf.step, NgIf.setNgIfElse, hth]
      rw [hstep]
      exact ⟨⟨hthen, helse⟩, hsync⟩
    · have hc' : CacheInv { s with elseTemplateRef := t, elseViewRef := none } := by
        refine ⟨?_, ?_⟩
        · intro t' hsome
          simpa using hthen t' (by simpa using hsome)
        · intro e hsome
          simp at hsome
      have hr := updateView_render _ hc'
      have hf := updateView_fixed_fields { s with elseTemplateRef := t, elseViewRef := none }
      have hstep : NgIf.step s (NgIfOp.setElse t)
          = (NgIf.updateView { s with elseTemplateRef := t, elseViewRef := none }).1 := by
        simp [NgIf.step, NgIf.setNgIfElse, hth]
      rw [SyncInv, hstep]
      refine ⟨hr.1, ?_⟩
      rw [hf.1, hf.2.2.1, hf.2.2.2]
      exact hr.2

/-- The synchronisation invariant is preserved along any sequence of
invocations. -/
theorem runOps_syncInv (ops : List NgIfOp) (s : NgIfState) (h : SyncInv s) :
    SyncInv (NgIf.runOps s ops) := by
  induction ops generalizing s with
  | nil => exact h
  | cons op rest ih => exact ih (NgIf.step s op) (step_syncInv s op h)

/-- Input-field correspondence between the cached `NgIf` implementation and
the naive stateless reference implementation. -/
def Corres (s : NgIfState) (n : NaiveNgIfState) : Prop :=
  s.implicit = n.implicit ∧ s.ngIfCtx = n.ngIfCtx ∧
  s.thenTemplateRef = n.thenTemplateRef ∧ s.elseTemplateRef = n.elseTemplateRef

/-- Each invocation keeps the two implementations' input fields in
correspondence. -/
theorem step_corres (s : NgIfState) (n : NaiveNgIfState) (op : NgIfOp)
    (h : Corres s n) : Corres (NgIf.step s op) (NaiveNgIf.step n op) := by
  obtain ⟨h1, h2, h3, h4⟩ := h
  cases op with
  | setIf c =>
    have hf := updateView_fixed_fields { s with implicit := c, ngIfCtx := c }
    exact ⟨hf.1, hf.2.1, hf.2.2.1.trans h3, hf.2.2.2.trans h4⟩
  | setThen t =>
    by_cases hth : (!isTemplateRefOrNull t) = true
    · have hstep : NgIf.step s (NgIfOp.setThen t) = s := by
        simp [NgIf.step, NgIf.setNgIfThen, hth]
      have hn : NaiveNgIf.step n (NgIfOp.setThen t) = n := by
        simp [NaiveNgIf.step, hth]
      rw [hstep, hn]
      exact ⟨h1, h2, h3, h4⟩
    · have hf := updateView_fixed_fields { s with thenTemplateRef := t, thenViewRef := none }
      have hstep : NgIf.step s (NgIfOp.setThen t)
          = (NgIf.updateView { s with thenTemplateRef := t, thenViewRef := none }).1 := by
        simp [NgIf.step, NgIf.setNgIfThen, hth]
      have hn : NaiveNgIf.step n (NgIfOp.setThen t) = { n with thenTemplateRef := t } := by
        simp [NaiveNgIf.step, hth]
      rw [Corres, hstep, hn]
      exact ⟨hf.1.trans h1, hf.2.1.trans h2, hf.2.2.1, hf.2.2.2.trans h4⟩
  | setElse t =>
    by_cases hth : (!isTemplateRefOrNull t) = true
    · have hstep : NgIf.step s (NgIfOp.setElse t) = s := by
        simp [NgIf.step, NgIf.setNgIfElse, hth]
      have hn : NaiveNgIf.step n (NgIfOp.setElse t) = n := by
        simp [NaiveNgIf.step, hth]
      rw [hstep, hn]
      exact ⟨h1, h2, h3, h4⟩
    · have hf := updateView_fixed_fields { s with elseTemplateRef := t, elseViewRef := none }
      have hstep : NgIf.step s (NgIfOp.setElse t)
          = (NgIf.updateView { s with elseTemplateRef := t, elseViewRef := none }).1 := by
        simp [NgIf.step, NgIf.setNgIfElse, hth]
      have hn : NaiveNgIf.step n (NgIfOp.setElse t) = { n with elseTemplateRef := t } := by
        simp [NaiveNgIf.step, hth]
      rw [Corres, hstep, hn]
      exact ⟨hf.1.trans h1, hf.2.1.trans h2, hf.2.2.1.trans h3, hf.2.2.2⟩

/-- Correspondence is preserved along any sequence of invocations. -/
theorem runOps_corres (ops : List NgIfOp) (s : NgIfState) (n : NaiveNgIfState)
    (h : Corres s n) : Corres (NgIf.runOps s ops) (NaiveNgIf.run n ops) := by
  induction ops generalizing s n with
  | nil => exact h
  | cons op rest ih => exact ih _ _ (step_corres s n op h)

/-- C3: after any sequence of `NgIf` input-setter invocations from the
constructor state, the cached `_updateView` implementation holds exactly
the views the naive stateless rule prescribes for the final inputs, and the
two implementations agree on the directive context. -/
theorem ngIf_cached_equals_naive (t0 : JsVal) (ops : List NgIfOp) :
    (NgIf.runOps (NgIf.init t0) ops).container
      = specNaiveRender (NaiveNgIf.run (NaiveNgIf.init t0) ops).implicit
          (NaiveNgIf.run (NaiveNgIf.init t0) ops).thenTemplateRef
          (NaiveNgIf.run (NaiveNgIf.init t0) ops).elseTemplateRef ∧
    (NgIf.runOps (NgIf.init t0) ops).implicit
      = (NaiveNgIf.run (NaiveNgIf.init t0) ops).implicit ∧
    (NgIf.runOps (NgIf.init t0) ops).ngIfCtx
      = (NaiveNgIf.run (NaiveNgIf.init t0) ops).ngIfCtx := by
  have hinit : SyncInv (NgIf.init t0) := by
    refine ⟨⟨?_, ?_⟩, ?_⟩
    · intro t hsome
      simp [NgIf.init] at hsome
    · intro e hsome
      simp [NgIf.init] at hsome
    · simp [NgIf.init, specNaiveRender, JsVal.truthy]
  have hsync := runOps_syncInv ops (NgIf.init t0) hinit
  have hcorr := runOps_corres ops (NgIf.init t0) (NaiveNgIf.init t0)
    ⟨rfl, rfl, rfl, rfl⟩
  obtain ⟨c1, c2, c3, c4⟩ := hcorr
  refine ⟨?_, c1, c2⟩
  rw [hsync.2, c1, c3, c4]

/-- The context-normalisation loop preserves the container's length. -/
theorem updateContextsFrom_length (ngv : JsVal) (ilen : Int) :
    ∀ (l : List ForView) (i : Int),
      (NgForOf.updateContextsFrom ngv ilen i l).length = l.length := by
  intro l
  induction l with
  | nil => intro i; rfl
  | cons v rest ih =>
    intro i
    simp [NgForOf.updateContextsFrom, ih]

/-- After the context-normalisation loop, the view at offset `j` carries
index `i + j`, count `ilen` and the given `ngForOf` value. -/
theorem updateContextsFrom_get (ngv : JsVal) (ilen : Int) :
    ∀ (l : List ForView) (i : Int) (j : Nat)
      (h : j < (NgForOf.updateContextsFrom ngv ilen i l).length),
      ((NgForOf.updateContextsFrom ngv ilen i l).get ⟨j, h⟩).context.index = i + j ∧
      ((NgForOf.updateContextsFrom ngv ilen i l).get ⟨j, h⟩).context.count = ilen ∧
      ((NgForOf.updateContextsFrom ngv ilen i l).get ⟨j, h⟩).context.ngForOf = ngv := by
  intro l
  induction l with
  | nil =>
    intro i j h
    simp [NgForOf.updateContextsFrom] at h
  | cons v rest ih =>
    intro i j h
    cases j with
    | zero =>
      simp [NgForOf.updateContextsFrom, List.get]
    | succ j' =>
      have hrest : j' < (NgForOf.updateContextsFrom ngv ilen (i + 1) rest).length := by
        simpa [NgForOf.updateContextsFrom] using h
      have hx := ih (i + 1) j' hrest
      have hget : ((NgForOf.updateContextsFrom ngv ilen i (v :: rest)).get ⟨j' + 1, h⟩)
          = ((NgForOf.updateContextsFrom ngv ilen (i + 1) rest).get ⟨j', hrest⟩) := by
        simp [NgForOf.updateContextsFrom, List.get_eq_getElem]
      rw [hget]
      refine ⟨?_, hx.2.1, hx.2.2⟩
      rw [hx.1]
      push_cast
      ring

/-- The normal form claim C4 asserts of every view after `_applyChanges`:
position-indexed `index`, container-length `count`, current `ngForOf`. -/
def ContextsNormal (ngv : JsVal) (c : List ForView) : Prop :=
  ∀ j (h : j < c.length),
    ((c.get ⟨j, h⟩).context.index = (j : Int)) ∧
    ((c.get ⟨j, h⟩).context.count = (c.length : Int)) ∧
    ((c.get ⟨j, h⟩).context.ngForOf = ngv)

/-- `forEachIdentityChange` steps preserve the container's length. -/
theorem applyIdentityChange_length (xs : List ForView) (r : IdentityRecord) :
    (NgForOf.applyIdentityChange xs r).length = xs.length := by
  unfold NgForOf.applyIdentityChange
  cases hx : xs[r.currentIndex]? <;> simp

/-- A `forEachIdentityChange` step only rewrites `$implicit`, so it
preserves the normal form of all contexts. -/
theorem applyIdentityChange_normal (ngv : JsVal) (xs : List ForView)
    (r : IdentityRecord) (h : ContextsNormal ngv xs) :
    ContextsNormal ngv (NgForOf.applyIdentityChange xs r) := by
  cases hx : xs[r.currentIndex]? with
  | none =>
    have heq : NgForOf.applyIdentityChange xs r = xs := by
      simp [NgForOf.applyIdentityChange, hx]
    rw [heq]
    exact h
  | some v =>
    have heq : NgForOf.applyIdentityChange xs r
        = xs.set r.currentIndex
            { v with context := { v.context with implicit := r.item } } := by
      simp [NgForOf.applyIdentityChange, hx]
    rw [heq]
    intro j hj
    have hjc : j < xs.length := by simpa using hj
    have hlen : (xs.set r.currentIndex
        { v with context := { v.context with implicit := r.item } }).length
        = xs.length := by simp
    by_cases hje : r.currentIndex = j
    · subst hje
      have hvget : xs.get ⟨r.currentIndex, hjc⟩ = v := by
        have := List.getElem?_eq_getElem hjc
        rw [hx] at this
        simpa [List.get_eq_getElem] using this.symm
      have hset : (xs.set r.currentIndex
          { v with context := { v.context with implicit := r.item } }).get ⟨r.currentIndex, hj⟩
          = { v with context := { v.context with implicit := r.item } } := by
        simp [List.get_eq_getElem]
      rw [hset, hlen]
      have hold := h r.currentIndex hjc
      rw [hvget] at hold
      exact ⟨hold.1, hold.2.1, hold.2.2⟩
    · have hset : (xs.set r.currentIndex
          { v with context := { v.context with implicit := r.item } }).get ⟨j, hj⟩
          = xs.get ⟨j, hjc⟩ := by
        simp [List.get_eq_getElem, List.getElem_set_ne, hje]
      rw [hset, hlen]
      exact h j hjc

/-- Folding all identity changes preserves the normal form. -/
theorem foldl_identity_normal (ngv : JsVal) (ids : List IdentityRecord) :
    ∀ (xs : List ForView), ContextsNormal ngv xs →
      ContextsNormal ngv (ids.foldl NgForOf.applyIdentityChange xs) := by
  induction ids with
  | nil => intro xs h; exact h
  | cons r rest ih =>
    intro xs h
    exact ih _ (applyIdentityChange_normal ngv xs r h)

/-- C4: after every completed `_applyChanges` call, the view at each
position `i` of the container has context `index = i`,
`count = container length`, and `ngForOf = the current iterable value`; in
particular no view retains the `-1` placeholders it was created with. -/
theorem applyChanges_contexts_normal (s : NgForOfState) (changes : DifferChanges)
    (i : Nat) (h : i < (NgForOf.applyChanges s changes).container.length) :
    (((NgForOf.applyChanges s changes).container.get ⟨i, h⟩).context.index = (i : Int)) ∧
    (((NgForOf.applyChanges s changes).container.get ⟨i, h⟩).context.count
      = ((NgForOf.applyChanges s changes).container.length : Int)) ∧
    (((NgForOf.applyChanges s changes).container.get ⟨i, h⟩).context.ngForOf = s.ngForOf) ∧
    (((NgForOf.applyChanges s changes).container.get ⟨i, h⟩).context.index ≠ -1) ∧
    (((NgForOf.applyChanges s changes).container.get ⟨i, h⟩).context.count ≠ -1) := by
  have hnorm : ContextsNormal s.ngForOf (NgForOf.applyChanges s changes).container := by
    apply foldl_identity_normal
    intro j hj
    set c1 := changes.operations.foldl
      (NgForOf.applyOperation s.template s.ngForOf) s.container with hc1
    have hlen := updateContextsFrom_length s.ngForOf (c1.length : Int) c1 0
    have hg := updateContextsFrom_get s.ngForOf (c1.length : Int) c1 0 j hj
    refine ⟨by rw [hg.1]; ring, ?_, hg.2.2⟩
    rw [hg.2.1, hlen]
  have hres := hnorm i h
  have hlenpos : 0 < (NgForOf.applyChanges s changes).container.length :=
    Nat.lt_of_le_of_lt (Nat.zero_le i) h
  refine ⟨hres.1, hres.2.1, hres.2.2, ?_, ?_⟩
  · rw [hres.1]
    omega
  · rw [hres.2.1]
    omega

/-- Witness for `applyChanges_contexts_normal`: one insertion into an empty
container yields a single view with index `0`, count `1`, and the current
`ngForOf` value. -/
theorem applyChanges_contexts_normal_witness :
    (0 : Nat) < ((NgForOf.applyChanges
      { ngForOf := JsVal.vstr "xs", ngForOfDirty := false, differ := none,
        trackByFn := JsVal.vundefined, template := 7, container := [] }
      { operations := [{ record := { item := JsVal.vnum 42, previousIndex := none,
                                     currentIndex := none },
                         adjustedPreviousIndex := none, currentIndex := none }],
        identityChanges := [] }).container.length) ∧
    (((NgForOf.applyChanges
      { ngForOf := JsVal.vstr "xs", ngForOfDirty := false, differ := none,
        trackByFn := JsVal.vundefined, template := 7, container := [] }
      { operations := [{ record := { item := JsVal.vnum 42, previousIndex := none,
                                     currentIndex := none },
                         adjustedPreviousIndex := none, currentIndex := none }],
        identityChanges := [] }).container.get ⟨0, by decide⟩).context.index = (0 : Int)) := by
  refine ⟨by decide, ?_⟩
  exact (applyChanges_contexts_normal
    { ngForOf := JsVal.vstr "xs", ngForOfDirty := false, differ := none,
      trackByFn := JsVal.vundefined, template := 7, container := [] }
    { operations := [{ record := { item := JsVal.vnum 42, previousIndex := none,
                                   currentIndex := none },
                       adjustedPreviousIndex := none, currentIndex := none }],
      identityChanges := [] } 0 (by decide)).1

example : (NgIf.setNgIf (NgIf.init (JsVal.vobj 0 (JsVal.vfun 0))) (JsVal.vbool true)).1.container
    = [JsVal.vobj 0 (JsVal.vfun 0)] := by decide

example : (NgIf.setNgIfThen (NgIf.init (JsVal.vobj 0 (JsVal.vfun 0))) (JsVal.vnum 5)).2.2 = true := by decide

example : (NgIf.setNgIfThen (NgIf.init (JsVal.vobj 0 (JsVal.vfun 0))) (JsVal.vbool false)).2.2 = false := by decide

example :
    (NgForOf.ngDoCheck (fun _ => none)
      { ngForOf := JsVal.vnum 1, ngForOfDirty := true, differ := none,
        trackByFn := JsVal.vundefined, template := 0, container := [] }).2 = true := by rfl

example :
    (NgForOf.ngDoCheck (fun _ => none)
      { ngForOf := JsVal.vnum 1, ngForOfDirty := false, differ := none,
        trackByFn := JsVal.vundefined, template := 0, container := [] }).2 = false := by rfl
